import Mathlib

set_option maxRecDepth 8192

/-!
Verification of the broadify-bridge native core: the FrameBus shared-memory
ring channel (framebus-addon.cc) and the DeckLink playback helper
(decklink-helper.cpp).  Machine integers are modelled as Nat with explicit
reduction modulo 2 ^ 64 where the source wraps; shared memory is modelled as
a flat list of bytes; fallible operations return Except or Option.
-/

namespace FrameBus

/-- Channel descriptor, mirroring FrameBusHeader in framebus.h. -/
structure FrameBusHeader where
  magic : Nat
  version : Nat
  flags : Nat
  header_size : Nat
  width : Nat
  height : Nat
  fps : Nat
  pixel_format : Nat
  frame_size : Nat
  slot_count : Nat
  slot_stride : Nat
  seq : Nat
  last_write_ns : Nat
deriving Repr, DecidableEq

/-- A mapped channel: the descriptor plus the flat byte array of the slots
region that follows the header in shared memory. -/
structure Channel where
  header : FrameBusHeader
  slots : List Nat
deriving Repr, DecidableEq

/-- memcpy into a flat byte array at a byte offset. -/
def memcpy (dest : List Nat) (offset : Nat) (src : List Nat) : List Nat :=
  dest.take offset ++ src ++ dest.drop (offset + src.length)

/-- WriterWriteFrame from framebus-addon.cc: reject a buffer whose length is
not frame_size, otherwise copy it into slot (seq mod slot_count), store the
optional timestamp, then increment seq (a uint64, hence the mod 2 ^ 64). -/
def WriterWriteFrame (ch : Channel) (buf : List Nat) (timestamp : Option Nat) :
    Except String Channel :=
  if buf.length ≠ ch.header.frame_size then
    Except.error "Frame size mismatch"
  else
    let current_seq := ch.header.seq
    let slot_index :=
      if ch.header.slot_count > 0 then current_seq % ch.header.slot_count else 0
    let new_slots := memcpy ch.slots (slot_index * ch.header.slot_stride) buf
    let new_last_write :=
      match timestamp with
      | some ts => ts
      | none => ch.header.last_write_ns
    Except.ok
      { header := { ch.header with
          seq := (current_seq + 1) % 2 ^ 64
          last_write_ns := new_last_write }
        slots := new_slots }

/-- Result object of readLatest: buffer view, timestamp, sequence. -/
structure ReadResult where
  buffer : List Nat
  timestampNs : Nat
  seq : Nat
deriving Repr, DecidableEq

/-- ReaderReadLatest from framebus-addon.cc: null when seq is zero or the
header reports zero slots, otherwise a view of slot ((seq - 1) mod
slot_count) together with the last-write timestamp and seq. -/
def ReaderReadLatest (ch : Channel) : Option ReadResult :=
  let s := ch.header.seq
  if s = 0 ∨ ch.header.slot_count = 0 then
    none
  else
    let slot_index := (s - 1) % ch.header.slot_count
    let offset := slot_index * ch.header.slot_stride
    some
      { buffer := (ch.slots.drop offset).take ch.header.frame_size
        timestampNs := ch.header.last_write_ns
        seq := s }

/-- CreateWriter from framebus-addon.cc: validate the options, then build a
fresh channel whose descriptor has seq = 0 and whose slot region is
slot_count * frame_size zero bytes (ftruncate zero-fills). -/
def CreateWriter (width height fps pixel_format slot_count : Nat) :
    Except String Channel :=
  if width = 0 then Except.error "Invalid width"
  else if height = 0 then Except.error "Invalid height"
  else if fps = 0 then Except.error "Invalid fps"
  else if pixel_format = 0 then Except.error "Invalid pixelFormat"
  else if slot_count < 2 then Except.error "slotCount must be >= 2"
  else
    let frame_size := width * height * 4
    if frame_size > 2 ^ 32 - 1 then Except.error "Frame size too large"
    else
      Except.ok
        { header :=
            { magic := 0x46475242
              version := 1
              flags := 0
              header_size := 128
              width := width
              height := height
              fps := fps
              pixel_format := pixel_format
              frame_size := frame_size
              slot_count := slot_count
              slot_stride := frame_size
              seq := 0
              last_write_ns := 0 }
          slots := List.replicate (slot_count * frame_size) 0 }

/-- Sequential composition of writeFrame calls (no timestamps). -/
def writeFrames (ch : Channel) (frames : List (List Nat)) :
    Except String Channel :=
  match frames with
  | [] => Except.ok ch
  | f :: rest =>
    match WriterWriteFrame ch f none with
    | Except.error e => Except.error e
    | Except.ok ch2 => writeFrames ch2 rest

/-- Bytes of slot i of a channel: frame_size bytes at offset
i * slot_stride of the slots region. -/
def slotBytes (ch : Channel) (i : Nat) : List Nat :=
  (ch.slots.drop (i * ch.header.slot_stride)).take ch.header.frame_size

/-- Structural invariant every channel built by CreateWriter enjoys. -/
def GoodChannel (ch : Channel) : Prop :=
  0 < ch.header.slot_count ∧
  ch.header.slot_stride = ch.header.frame_size ∧
  ch.slots.length = ch.header.slot_count * ch.header.frame_size

theorem memcpy_length (dest src : List Nat) (offset : Nat)
    (h : offset + src.length ≤ dest.length) :
    (memcpy dest offset src).length = dest.length := by
  simp only [memcpy, List.length_append, List.length_take, List.length_drop]
  omega

theorem memcpy_read (dest src : List Nat) (offset : Nat)
    (h : offset ≤ dest.length) :
    ((memcpy dest offset src).drop offset).take src.length = src := by
  have htk : (dest.take offset).length = offset := by
    simp [List.length_take]; omega
  calc ((memcpy dest offset src).drop offset).take src.length
      = ((dest.take offset ++ (src ++ dest.drop (offset + src.length))).drop
          (dest.take offset).length).take src.length := by
        simp only [memcpy, htk, List.append_assoc]
    _ = (src ++ dest.drop (offset + src.length)).take src.length := by
        rw [List.drop_left]
    _ = src := List.take_left _ _

theorem writeFrame_ok (ch : Channel) (buf : List Nat) (timestamp : Option Nat)
    (hg : GoodChannel ch) (hlen : buf.length = ch.header.frame_size) :
    WriterWriteFrame ch buf timestamp = Except.ok
      { header := { ch.header with
          seq := (ch.header.seq + 1) % 2 ^ 64
          last_write_ns :=
            match timestamp with
            | some ts => ts
            | none => ch.header.last_write_ns }
        slots := memcpy ch.slots
          ((ch.header.seq % ch.header.slot_count) * ch.header.slot_stride)
          buf } := by
  obtain ⟨hsc, _, _⟩ := hg
  simp [WriterWriteFrame, hlen, hsc]

theorem writeFrames_ok (frames : List (List Nat)) :
    ∀ ch : Channel, GoodChannel ch →
      (∀ f ∈ frames, f.length = ch.header.frame_size) →
      ch.header.seq + frames.length < 2 ^ 64 →
      ∃ ch2, writeFrames ch frames = Except.ok ch2 ∧
        GoodChannel ch2 ∧
        ch2.header.frame_size = ch.header.frame_size ∧
        ch2.header.slot_count = ch.header.slot_count ∧
        ch2.header.slot_stride = ch.header.slot_stride ∧
        ch2.header.seq = ch.header.seq + frames.length ∧
        ∀ flast, frames.getLast? = some flast →
          slotBytes ch2
            ((ch.header.seq + frames.length - 1) % ch.header.slot_count) =
          flast := by
  induction frames with
  | nil =>
    intro ch hg _ _
    exact ⟨ch, rfl, hg, rfl, rfl, rfl, by simp, by simp⟩
  | cons f rest ih =>
    intro ch hg hlen hb
    obtain ⟨hsc, hstride, hslots⟩ := hg
    have hf : f.length = ch.header.frame_size := hlen f (List.mem_cons_self f rest)
    have hwf := writeFrame_ok ch f none ⟨hsc, hstride, hslots⟩ hf
    set off : Nat :=
      (ch.header.seq % ch.header.slot_count) * ch.header.slot_stride with hoffdef
    set ch1 : Channel :=
      { header := { ch.header with
          seq := (ch.header.seq + 1) % 2 ^ 64
          last_write_ns := ch.header.last_write_ns }
        slots := memcpy ch.slots off f } with hch1
    have hmod : ch.header.seq % ch.header.slot_count < ch.header.slot_count :=
      Nat.mod_lt _ hsc
    have hoff : off + f.length ≤ ch.slots.length := by
      rw [hoffdef, hstride, hslots, hf]
      calc ch.header.seq % ch.header.slot_count * ch.header.frame_size +
            ch.header.frame_size
          = (ch.header.seq % ch.header.slot_count + 1) * ch.header.frame_size := by
            ring
        _ ≤ ch.header.slot_count * ch.header.frame_size :=
            Nat.mul_le_mul_right _ hmod
    have hseq1 : ch1.header.seq = ch.header.seq + 1 := by
      simp only [hch1]
      exact Nat.mod_eq_of_lt (by simp at hb; omega)
    have hg1 : GoodChannel ch1 := by
      refine ⟨hsc, hstride, ?_⟩
      show (memcpy ch.slots off f).length = _
      rw [memcpy_length _ _ _ hoff, hslots]
    have hlen1 : ∀ g ∈ rest, g.length = ch1.header.frame_size := by
      intro g hgmem
      exact hlen g (List.mem_cons_of_mem f hgmem)
    have hb1 : ch1.header.seq + rest.length < 2 ^ 64 := by
      rw [hseq1]; simp at hb; omega
    obtain ⟨ch2, hwr, hg2, hfs2, hsc2, hst2, hseq2, hcontent⟩ :=
      ih ch1 hg1 hlen1 hb1
    refine ⟨ch2, ?_, hg2, hfs2, hsc2, hst2, ?_, ?_⟩
    · show writeFrames ch (f :: rest) = Except.ok ch2
      rw [writeFrames, hwf]
      exact hwr
    · rw [hseq2, hseq1]; simp; omega
    · intro flast hfl
      cases rest with
      | nil =>
        have hflf : flast = f := by simpa using hfl.symm
        have hch2 : ch2 = ch1 := by
          have : Except.ok (ε := String) ch1 = Except.ok ch2 := by
            simpa [writeFrames] using hwr
          exact (Except.ok.injEq _ _ ▸ this).symm
        subst hch2
        subst hflf
        show slotBytes ch1 ((ch.header.seq + 1 - 1) % ch.header.slot_count) = flast
        have hidx : ch.header.seq + 1 - 1 = ch.header.seq := by omega
        rw [hidx]
        show ((memcpy ch.slots off flast).drop
            ((ch.header.seq % ch.header.slot_count) * ch1.header.slot_stride)).take
            ch1.header.frame_size = flast
        have hst1 : ch1.header.slot_stride = ch.header.slot_stride := rfl
        have hfs1 : ch1.header.frame_size = ch.header.frame_size := rfl
        rw [hst1, hfs1, ← hoffdef, ← hf]
        exact memcpy_read _ _ _ (by omega)
      | cons g rest2 =>
        rw [List.getLast?_cons_cons] at hfl
        have hres := hcontent flast hfl
        have hidx : ch1.header.seq + (g :: rest2).length - 1 =
            ch.header.seq + (f :: g :: rest2).length - 1 := by
          rw [hseq1]; simp; omega
        have hscc : ch1.header.slot_count = ch.header.slot_count := rfl
        rw [hidx, hscc] at hres
        exact hres

/-- Claim C1: for every channel created with slot_count at least 2 and every
sequence of n writes (n at least 1, below the uint64 wrap bound) of
frame_size-byte frames, the n-th write lands in slot (n - 1) mod slot_count
and a read_latest strictly after the n-th write returns content
byte-identical to the n-th written frame with sequence number n. -/
theorem c1_ring_write_read_latest
    (width height fps pixel_format slot_count : Nat)
    (frames : List (List Nat)) (ch ch2 : Channel) (flast : List Nat)
    (hcreate : CreateWriter width height fps pixel_format slot_count =
      Except.ok ch)
    (hn : 1 ≤ frames.length)
    (hbound : frames.length < 2 ^ 64)
    (hlen : ∀ f ∈ frames, f.length = width * height * 4)
    (hw : writeFrames ch frames = Except.ok ch2)
    (hl : frames.getLast? = some flast) :
    slotBytes ch2 ((frames.length - 1) % slot_count) = flast ∧
    (ReaderReadLatest ch2).map (fun r => (r.buffer, r.seq)) =
      some (flast, frames.length) := by
  simp only [CreateWriter] at hcreate
  split_ifs at hcreate with h1 h2 h3 h4 h5 h6
  have hch : ch =
      { header :=
          { magic := 0x46475242, version := 1, flags := 0, header_size := 128
            width := width, height := height, fps := fps
            pixel_format := pixel_format, frame_size := width * height * 4
            slot_count := slot_count, slot_stride := width * height * 4
            seq := 0, last_write_ns := 0 }
        slots := List.replicate (slot_count * (width * height * 4)) 0 } := by
    injection hcreate with h
    exact h.symm
  subst hch
  have hg : GoodChannel
      { header :=
          { magic := 0x46475242, version := 1, flags := 0, header_size := 128
            width := width, height := height, fps := fps
            pixel_format := pixel_format, frame_size := width * height * 4
            slot_count := slot_count, slot_stride := width * height * 4
            seq := 0, last_write_ns := 0 }
        slots := List.replicate (slot_count * (width * height * 4)) 0 } := by
    refine ⟨?_, rfl, ?_⟩
    · show 0 < slot_count
      omega
    · show (List.replicate (slot_count * (width * height * 4)) 0).length =
        slot_count * (width * height * 4)
      simp
  obtain ⟨ch2x, hwr, hg2, hfs2, hsc2, hst2, hseq2, hcontent⟩ :=
    writeFrames_ok frames _ hg (by exact hlen) (by simpa using hbound)
  have hch2 : ch2x = ch2 := Except.ok.inj (hwr.symm.trans hw)
  rw [hch2] at hg2 hfs2 hsc2 hst2 hseq2 hcontent
  have hs : ch2.header.seq = frames.length := by simpa using hseq2
  have hslot : slotBytes ch2 ((frames.length - 1) % slot_count) = flast := by
    have := hcontent flast hl
    simpa using this
  refine ⟨hslot, ?_⟩
  have hsc2x : ch2.header.slot_count = slot_count := by simpa using hsc2
  have hst2x : ch2.header.slot_stride = width * height * 4 := by simpa using hst2
  have hfs2x : ch2.header.frame_size = width * height * 4 := by simpa using hfs2
  rw [ReaderReadLatest]
  simp only [hs, hsc2x, hst2x, hfs2x]
  rw [if_neg (by push_neg; exact ⟨by omega, by omega⟩)]
  simp only [Option.map_some']
  have hbuf :
      (ch2.slots.drop ((frames.length - 1) % slot_count * (width * height * 4))).take
        (width * height * 4) = flast := by
    have := hslot
    rw [slotBytes, hst2x, hfs2x] at this
    exact this
  simp [hbuf]

/-- Witness for C1: a 1x1 RGBA channel with 2 slots; three writes wrap the
ring and read_latest reports the third frame with sequence 3. -/
theorem c1_ring_write_read_latest_witness :
    slotBytes
      { header :=
          { magic := 0x46475242, version := 1, flags := 0, header_size := 128
            width := 1, height := 1, fps := 30, pixel_format := 1
            frame_size := 4, slot_count := 2, slot_stride := 4
            seq := 3, last_write_ns := 0 }
        slots := [9, 10, 11, 12, 5, 6, 7, 8] } 0 = [9, 10, 11, 12] ∧
    (ReaderReadLatest
      { header :=
          { magic := 0x46475242, version := 1, flags := 0, header_size := 128
            width := 1, height := 1, fps := 30, pixel_format := 1
            frame_size := 4, slot_count := 2, slot_stride := 4
            seq := 3, last_write_ns := 0 }
        slots := [9, 10, 11, 12, 5, 6, 7, 8] }).map
        (fun r => (r.buffer, r.seq)) = some ([9, 10, 11, 12], 3) :=
  c1_ring_write_read_latest 1 1 30 1 2
    [[1, 2, 3, 4], [5, 6, 7, 8], [9, 10, 11, 12]]
    { header :=
        { magic := 0x46475242, version := 1, flags := 0, header_size := 128
          width := 1, height := 1, fps := 30, pixel_format := 1
          frame_size := 4, slot_count := 2, slot_stride := 4
          seq := 0, last_write_ns := 0 }
      slots := [0, 0, 0, 0, 0, 0, 0, 0] }
    { header :=
        { magic := 0x46475242, version := 1, flags := 0, header_size := 128
          width := 1, height := 1, fps := 30, pixel_format := 1
          frame_size := 4, slot_count := 2, slot_stride := 4
          seq := 3, last_write_ns := 0 }
      slots := [9, 10, 11, 12, 5, 6, 7, 8] }
    [9, 10, 11, 12]
    (by rfl) (by decide) (by decide) (by decide) (by rfl) (by decide)

/-- Claim C6: on a channel on which no write has ever completed (published
sequence is zero), read_latest returns the distinguished no-frame-yet result
(none) and never a buffer view. -/
theorem c6_read_latest_before_first_write (ch : Channel)
    (h : ch.header.seq = 0) : ReaderReadLatest ch = none := by
  simp [ReaderReadLatest, h]

/-- Witness for C6 at a concrete freshly created channel. -/
theorem c6_read_latest_before_first_write_witness :
    ReaderReadLatest
      { header :=
          { magic := 0x46475242, version := 1, flags := 0, header_size := 128
            width := 1, height := 1, fps := 30, pixel_format := 1
            frame_size := 4, slot_count := 2, slot_stride := 4
            seq := 0, last_write_ns := 0 }
        slots := [0, 0, 0, 0, 0, 0, 0, 0] } = none :=
  c6_read_latest_before_first_write _ rfl

/-- Claim C9: writeFrame with a buffer whose byte length differs from the
frame_size of the header raises the Frame size mismatch error; in this
state-transformer embedding the error result carries no updated channel, so
no slot bytes are written and seq and the last-write timestamp keep their
prior values. -/
theorem c9_write_frame_size_mismatch (ch : Channel) (buf : List Nat)
    (ts : Option Nat) (h : buf.length ≠ ch.header.frame_size) :
    WriterWriteFrame ch buf ts = Except.error "Frame size mismatch" := by
  simp [WriterWriteFrame, h]

/-- Witness for C9: a 3-byte buffer against a 4-byte frame_size. -/
theorem c9_write_frame_size_mismatch_witness :
    WriterWriteFrame
      { header :=
          { magic := 0x46475242, version := 1, flags := 0, header_size := 128
            width := 1, height := 1, fps := 30, pixel_format := 1
            frame_size := 4, slot_count := 2, slot_stride := 4
            seq := 0, last_write_ns := 0 }
        slots := [0, 0, 0, 0, 0, 0, 0, 0] } [1, 2, 3] none =
      Except.error "Frame size mismatch" :=
  c9_write_frame_size_mismatch _ _ _ (by decide)

/-- Claim C10: read_latest is total on a malformed channel whose header
reports slot_count zero: it returns none rather than evaluating the modulo
with a zero divisor. -/
theorem c10_read_latest_zero_slot_count (ch : Channel)
    (h : ch.header.slot_count = 0) : ReaderReadLatest ch = none := by
  simp [ReaderReadLatest, h]

/-- Witness for C10: slot_count zero with a nonzero published sequence. -/
theorem c10_read_latest_zero_slot_count_witness :
    ReaderReadLatest
      { header :=
          { magic := 0x46475242, version := 1, flags := 0, header_size := 128
            width := 1, height := 1, fps := 30, pixel_format := 1
            frame_size := 4, slot_count := 0, slot_stride := 4
            seq := 5, last_write_ns := 7 }
        slots := [0, 0, 0, 0] } = none :=
  c10_read_latest_zero_slot_count _ rfl

end FrameBus

namespace DeckLink

/-! Embedding of decklink-helper.cpp.  Channel values are 8-bit, held as Nat;
all arithmetic in mapToLegalRange is nonnegative int arithmetic, so Nat
division matches the C integer division. -/

def kLegalMin : Nat := 16
def kLegalMax : Nat := 235
def kFullRange : Nat := 255
def kLegalRange : Nat := kLegalMax - kLegalMin

/-- mapToLegalRange from decklink-helper.cpp: scale by 219/255 with rounding
(half-up via the added kFullRange / 2) then offset by 16, clamped. -/
def mapToLegalRange (value : Nat) : Nat :=
  let scaled := (value * kLegalRange + kFullRange / 2) / kFullRange + kLegalMin
  if scaled < kLegalMin then kLegalMin
  else if scaled > kLegalMax then kLegalMax
  else scaled

/-- Modelled from the spec words for the legal-range mapping: round(v * 219 /
255) + 16, clamped to the interval from 16 to 235.  Rounding is half-up;
ties cannot occur for integer v because v * 219 * 2 is never an odd multiple
of 255. -/
def legalRangeOfSpec (v : Nat) : Nat :=
  let rounded := (2 * (v * 219) + 255) / (2 * 255)
  min 235 (max 16 (rounded + 16))

/-- Claim C2: for every 8-bit channel value v, the legal-range mapping equals
round(v * 219 / 255) + 16 clamped to the interval from 16 to 235; it maps 0
to 16 and 255 to 235, and every output lies in that interval. -/
theorem c2_map_to_legal_range (v : Nat) (hv : v < 256) :
    mapToLegalRange v = legalRangeOfSpec v ∧
    16 ≤ mapToLegalRange v ∧ mapToLegalRange v ≤ 235 ∧
    mapToLegalRange 0 = 16 ∧ mapToLegalRange 255 = 235 := by
  revert v
  decide

/-- Witness for C2 at v = 200. -/
theorem c2_map_to_legal_range_witness :
    mapToLegalRange 200 = legalRangeOfSpec 200 ∧
    16 ≤ mapToLegalRange 200 ∧ mapToLegalRange 200 ≤ 235 ∧
    mapToLegalRange 0 = 16 ∧ mapToLegalRange 255 = 235 :=
  c2_map_to_legal_range 200 (by decide)

def kMaxQueuedFrames : Nat := 4

namespace FrameQueue

/-- FrameQueue.push from decklink-helper.cpp: when the deque already holds
kMaxQueuedFrames entries the front (oldest) is popped, then the new frame is
appended at the back. -/
def push (frames : List (List Nat)) (frame : List Nat) : List (List Nat) :=
  let frames := if kMaxQueuedFrames ≤ frames.length then frames.drop 1 else frames
  frames ++ [frame]

/-- FrameQueue.pop from decklink-helper.cpp: non-blocking front removal. -/
def pop : List (List Nat) → Option (List Nat × List (List Nat))
  | [] => none
  | f :: rest => some (f, rest)

end FrameQueue

/-- Claim C4: the playback queue is bounded by kMaxQueuedFrames = 4; a push
onto a full queue evicts exactly the oldest entry; and enqueuing any five
frames into an empty queue leaves exactly the newest four in FIFO order. -/
theorem c4_frame_queue_drop_oldest :
    (∀ q f, q.length ≤ kMaxQueuedFrames →
      (FrameQueue.push q f).length ≤ kMaxQueuedFrames) ∧
    (∀ q f, q.length = kMaxQueuedFrames →
      FrameQueue.push q f = q.drop 1 ++ [f]) ∧
    (∀ fs : List (List Nat), fs.length = kMaxQueuedFrames + 1 →
      List.foldl FrameQueue.push [] fs = fs.drop 1) := by
  refine ⟨?_, ?_, ?_⟩
  · intro q f hq
    simp only [FrameQueue.push, kMaxQueuedFrames] at *
    split <;> simp <;> omega
  · intro q f hq
    simp [FrameQueue.push, hq]
  · intro fs hfs
    match fs, hfs with
    | [a, b, c, d, e], _ =>
      simp [FrameQueue.push, kMaxQueuedFrames]

/-- Witness for C4 on concrete queues. -/
theorem c4_frame_queue_drop_oldest_witness :
    (FrameQueue.push [[0], [1], [2], [3]] [9]).length ≤ kMaxQueuedFrames ∧
    FrameQueue.push [[0], [1], [2], [3]] [9] =
      [[0], [1], [2], [3]].drop 1 ++ [[9]] ∧
    List.foldl FrameQueue.push [] [[0], [1], [2], [3], [4]] =
      [[0], [1], [2], [3], [4]].drop 1 :=
  ⟨c4_frame_queue_drop_oldest.1 [[0], [1], [2], [3]] [9] (by decide),
   c4_frame_queue_drop_oldest.2.1 [[0], [1], [2], [3]] [9] (by decide),
   c4_frame_queue_drop_oldest.2.2 [[0], [1], [2], [3], [4]] (by decide)⟩

/-- Completion result classification reported by the sink. -/
inductive CompletionResult
  | completed
  | displayedLate
  | dropped
  | flushed
deriving Repr, DecidableEq

/-- Scheduler state touched by ScheduledFrameCompleted.  The sink itself is
external; a submission to it is reported in the return value. -/
structure CallbackState where
  queue : List (List Nat)
  lastFrame : List Nat
  hasLastFrame : Bool
  completedFrames : Nat
  lateFrames : Nat
  droppedFrames : Nat
  nextFrameTime : Int
  frameDuration : Int
deriving Repr, DecidableEq

/-- DeckLinkPlaybackCallback.ScheduledFrameCompleted from
decklink-helper.cpp: bump the completion counters, attempt a non-blocking
pop of the queue, fall back to the retained last frame, and when the chosen
frame is nonempty retain it and schedule it at nextFrameTime (scheduleFrame
then advances nextFrameTime by frameDuration).  The returned option is the
submission handed to the sink: the frame bytes and the output time. -/
def scheduledFrameCompleted (st : CallbackState) (result : CompletionResult) :
    CallbackState × Option (List Nat × Int) :=
  let st := { st with completedFrames := st.completedFrames + 1 }
  let st :=
    match result with
    | CompletionResult.displayedLate => { st with lateFrames := st.lateFrames + 1 }
    | CompletionResult.dropped => { st with droppedFrames := st.droppedFrames + 1 }
    | CompletionResult.flushed => { st with droppedFrames := st.droppedFrames + 1 }
    | CompletionResult.completed => st
  let popped :=
    match FrameQueue.pop st.queue with
    | some (f, rest) => (f, { st with queue := rest })
    | none => (if st.hasLastFrame then st.lastFrame else [], st)
  let frameData := popped.1
  let st := popped.2
  if frameData ≠ [] then
    ({ st with
        lastFrame := frameData
        hasLastFrame := true
        nextFrameTime := st.nextFrameTime + st.frameDuration },
      some (frameData, st.nextFrameTime))
  else (st, none)

/-- Claim C5: on a completion notification with an empty queue and a
retained last frame, the handler resubmits exactly the retained last frame
for the next output slot (the pop is non-blocking, never waiting on
ingestion); when the queue is non-empty, the dequeued frame becomes the new
retained last frame and is the one submitted. -/
theorem c5_completion_underrun_repeat (st : CallbackState)
    (result : CompletionResult) :
    (st.queue = [] → st.hasLastFrame = true → st.lastFrame ≠ [] →
      (scheduledFrameCompleted st result).2 =
        some (st.lastFrame, st.nextFrameTime) ∧
      (scheduledFrameCompleted st result).1.lastFrame = st.lastFrame ∧
      (scheduledFrameCompleted st result).1.nextFrameTime =
        st.nextFrameTime + st.frameDuration) ∧
    (∀ f rest, st.queue = f :: rest → f ≠ [] →
      (scheduledFrameCompleted st result).1.lastFrame = f ∧
      (scheduledFrameCompleted st result).1.hasLastFrame = true ∧
      (scheduledFrameCompleted st result).1.queue = rest ∧
      (scheduledFrameCompleted st result).2 = some (f, st.nextFrameTime)) := by
  constructor
  · intro hq hhas hne
    cases result <;>
      simp [scheduledFrameCompleted, FrameQueue.pop, hq, hhas, hne]
  · intro f rest hq hne
    cases result <;>
      simp [scheduledFrameCompleted, FrameQueue.pop, hq, hne]

/-- Witness for C5: an underrun state with a retained frame, and a state
with a queued frame. -/
theorem c5_completion_underrun_repeat_witness :
    ((scheduledFrameCompleted
        { queue := [], lastFrame := [7, 7, 7, 7], hasLastFrame := true
          completedFrames := 10, lateFrames := 1, droppedFrames := 0
          nextFrameTime := 1000, frameDuration := 1001 }
        CompletionResult.completed).2 =
      some ([7, 7, 7, 7], 1000) ∧
    (scheduledFrameCompleted
        { queue := [], lastFrame := [7, 7, 7, 7], hasLastFrame := true
          completedFrames := 10, lateFrames := 1, droppedFrames := 0
          nextFrameTime := 1000, frameDuration := 1001 }
        CompletionResult.completed).1.lastFrame = [7, 7, 7, 7] ∧
    (scheduledFrameCompleted
        { queue := [], lastFrame := [7, 7, 7, 7], hasLastFrame := true
          completedFrames := 10, lateFrames := 1, droppedFrames := 0
          nextFrameTime := 1000, frameDuration := 1001 }
        CompletionResult.completed).1.nextFrameTime = 1000 + 1001) ∧
    ((scheduledFrameCompleted
        { queue := [[5, 5], [6, 6]], lastFrame := [7, 7, 7, 7]
          hasLastFrame := true, completedFrames := 10, lateFrames := 1
          droppedFrames := 0, nextFrameTime := 1000, frameDuration := 1001 }
        CompletionResult.displayedLate).1.lastFrame = [5, 5] ∧
    (scheduledFrameCompleted
        { queue := [[5, 5], [6, 6]], lastFrame := [7, 7, 7, 7]
          hasLastFrame := true, completedFrames := 10, lateFrames := 1
          droppedFrames := 0, nextFrameTime := 1000, frameDuration := 1001 }
        CompletionResult.displayedLate).1.hasLastFrame = true ∧
    (scheduledFrameCompleted
        { queue := [[5, 5], [6, 6]], lastFrame := [7, 7, 7, 7]
          hasLastFrame := true, completedFrames := 10, lateFrames := 1
          droppedFrames := 0, nextFrameTime := 1000, frameDuration := 1001 }
        CompletionResult.displayedLate).1.queue = [[6, 6]] ∧
    (scheduledFrameCompleted
        { queue := [[5, 5], [6, 6]], lastFrame := [7, 7, 7, 7]
          hasLastFrame := true, completedFrames := 10, lateFrames := 1
          droppedFrames := 0, nextFrameTime := 1000, frameDuration := 1001 }
        CompletionResult.displayedLate).2 = some ([5, 5], 1000)) :=
  ⟨(c5_completion_underrun_repeat _ CompletionResult.completed).1
      rfl rfl (by decide),
   (c5_completion_underrun_repeat _ CompletionResult.displayedLate).2
      [5, 5] [[6, 6]] rfl (by decide)⟩

/-- Colorspace tags used for conversion. -/
inductive Colorspace
  | unknown
  | rec601
  | rec709
  | rec2020
deriving Repr, DecidableEq

/-- The three colorspace bits of BMDDisplayModeFlags the helper inspects. -/
structure DisplayModeFlags where
  rec601 : Bool
  rec709 : Bool
  rec2020 : Bool
deriving Repr, DecidableEq

/-- selectColorspaceFromFlags from decklink-helper.cpp: rec2020 over rec709
over rec601; the height argument is unused. -/
def selectColorspaceFromFlags (flags : DisplayModeFlags) (height : Int) :
    Colorspace :=
  if flags.rec2020 then Colorspace.rec2020
  else if flags.rec709 then Colorspace.rec709
  else if flags.rec601 then Colorspace.rec601
  else Colorspace.unknown

/-- fallbackColorspaceFromHeight from decklink-helper.cpp. -/
def fallbackColorspaceFromHeight (height : Int) : Colorspace :=
  if 0 < height ∧ height ≤ 576 then Colorspace.rec601 else Colorspace.rec709

/-- Colorspace resolution in runPlayback (decklink-helper.cpp lines 1801 to
1823): auto tag from the mode flags, height fallback when the flags give
nothing, then the caller override, which is rejected only when it is rec2020
and the mode flags do not report rec2020. -/
def resolveColorspace (flags : DisplayModeFlags) (height : Int)
    (override : Colorspace) : Colorspace :=
  let autoColorspace := selectColorspaceFromFlags flags height
  let autoColorspace :=
    if autoColorspace = Colorspace.unknown then fallbackColorspaceFromHeight height
    else autoColorspace
  if override ≠ Colorspace.unknown then
    if override = Colorspace.rec2020 ∧ ¬ flags.rec2020 then autoColorspace
    else override
  else autoColorspace

/-- Modelled from the claim words for C7: an override takes precedence only
when the sink reports it structurally supported (its bit present in the
display mode flags); otherwise the flag-derived tag, then the height
heuristic. -/
def overrideStructurallySupported (flags : DisplayModeFlags) :
    Colorspace → Bool
  | Colorspace.rec601 => flags.rec601
  | Colorspace.rec709 => flags.rec709
  | Colorspace.rec2020 => flags.rec2020
  | Colorspace.unknown => false

/-- Modelled from the claim words for C7: the full resolution order the
claim asserts. -/
def resolveColorspaceOfClaim (flags : DisplayModeFlags) (height : Int)
    (override : Colorspace) : Colorspace :=
  if override ≠ Colorspace.unknown ∧ overrideStructurallySupported flags override
  then override
  else
    let fromFlags := selectColorspaceFromFlags flags height
    if fromFlags ≠ Colorspace.unknown then fromFlags
    else fallbackColorspaceFromHeight height

/-- Counterexample to claim C7 as stated: with no colorspace flags reported,
height 1080 and a rec601 caller override, the code applies the override even
though the sink does not report it supported, while the claimed resolution
falls back to rec709. -/
theorem c7_colorspace_claim_counterexample :
    resolveColorspace { rec601 := false, rec709 := false, rec2020 := false }
        1080 Colorspace.rec601 = Colorspace.rec601 ∧
    resolveColorspaceOfClaim
        { rec601 := false, rec709 := false, rec2020 := false }
        1080 Colorspace.rec601 = Colorspace.rec709 ∧
    resolveColorspace { rec601 := false, rec709 := false, rec2020 := false }
        1080 Colorspace.rec601 ≠
      resolveColorspaceOfClaim
        { rec601 := false, rec709 := false, rec2020 := false }
        1080 Colorspace.rec601 := by
  refine ⟨rfl, rfl, ?_⟩
  decide

/-- Claim C7 as amended: a caller override takes precedence over the
flag-derived tag (rec2020 over rec709 over rec601), which takes precedence
over the height heuristic (positive height up to 576 lines gives rec601,
taller gives rec709), except that only a rec2020 override is checked for
structural support: a rec2020 override not reported in the mode flags is
ignored in favour of the automatic tag, while rec601 and rec709 overrides
are applied unconditionally. -/
theorem c7_colorspace_resolution_amended (flags : DisplayModeFlags)
    (height : Int) (override : Colorspace) (hh : 0 < height) :
    resolveColorspace flags height override =
      if override ≠ Colorspace.unknown ∧
          (override ≠ Colorspace.rec2020 ∨ flags.rec2020) then override
      else if flags.rec2020 then Colorspace.rec2020
      else if flags.rec709 then Colorspace.rec709
      else if flags.rec601 then Colorspace.rec601
      else if height ≤ 576 then Colorspace.rec601
      else Colorspace.rec709 := by
  obtain ⟨f601, f709, f2020⟩ := flags
  cases override <;> cases f601 <;> cases f709 <;> cases f2020 <;>
    simp [resolveColorspace, selectColorspaceFromFlags,
      fallbackColorspaceFromHeight, hh]

/-- Witness for C7 as amended: a rec2020 override without flag support at
height 1080 falls back to the rec709 auto tag. -/
theorem c7_colorspace_resolution_amended_witness :
    resolveColorspace { rec601 := false, rec709 := true, rec2020 := false }
        1080 Colorspace.rec2020 =
      if (Colorspace.rec2020 ≠ Colorspace.unknown ∧
          (Colorspace.rec2020 ≠ Colorspace.rec2020 ∨ false)) then
        Colorspace.rec2020
      else if false then Colorspace.rec2020
      else if true then Colorspace.rec709
      else if false then Colorspace.rec601
      else if (1080 : Int) ≤ 576 then Colorspace.rec601
      else Colorspace.rec709 :=
  c7_colorspace_resolution_amended
    { rec601 := false, rec709 := true, rec2020 := false }
    1080 Colorspace.rec2020 (by decide)

/-- PlaybackState.prerollTarget from decklink-helper.cpp: initialized to 3
and never reassigned. -/
def prerollTarget : Nat := 3

/-- Calls issued to the sink by the playback loop, with the result the sink
reported. -/
inductive SinkEvent
  | schedule (frame : List Nat) (ok : Bool)
  | start (ok : Bool)
deriving Repr, DecidableEq

def isSuccessfulSchedule : SinkEvent → Bool
  | SinkEvent.schedule _ ok => ok
  | SinkEvent.start _ => false

def isStartEvent : SinkEvent → Bool
  | SinkEvent.schedule _ _ => false
  | SinkEvent.start _ => true

/-- Scheduler fields maybeStartPlayback touches. -/
structure LoopState where
  started : Bool
  prerollScheduled : Nat
  queue : List (List Nat)
  lastFrame : List Nat
  hasLastFrame : Bool
deriving Repr, DecidableEq

/-- The preroll while-loop of maybeStartPlayback in runPlayback: while the
preroll target is not reached, pop a frame (break when empty), retain it as
the last frame, and attempt to schedule it to the sink; a successful
schedule increments prerollScheduled, a failed one breaks the loop.  The
sink acceptance of the i-th schedule attempt of this call is the oracle
sinkOk i; scheduleFrame itself also fails on an empty frame.  Returns the
remaining queue, the preroll counter, the retained frame and flag, and the
trace of sink calls. -/
def prerollLoop (queue : List (List Nat)) (scheduled : Nat)
    (lastFrame : List Nat) (hasLast : Bool) (sinkOk : Nat → Bool)
    (attempt : Nat) :
    List (List Nat) × Nat × List Nat × Bool × List SinkEvent :=
  if scheduled < prerollTarget then
    match queue with
    | [] => ([], scheduled, lastFrame, hasLast, [])
    | frameData :: rest =>
      if (!frameData.isEmpty) && sinkOk attempt then
        let r := prerollLoop rest (scheduled + 1) frameData true sinkOk
          (attempt + 1)
        (r.1, r.2.1, r.2.2.1, r.2.2.2.1,
          SinkEvent.schedule frameData true :: r.2.2.2.2)
      else
        (rest, scheduled, frameData, true,
          [SinkEvent.schedule frameData false])
  else (queue, scheduled, lastFrame, hasLast, [])

/-- maybeStartPlayback from runPlayback: a no-op once started; otherwise run
the preroll loop and, only when the preroll counter has reached the target,
issue StartScheduledPlayback to the sink (acceptance startOk), setting
started only on success. -/
def maybeStartPlayback (st : LoopState) (sinkOk : Nat → Bool)
    (startOk : Bool) : LoopState × List SinkEvent :=
  if st.started then (st, [])
  else
    let r := prerollLoop st.queue st.prerollScheduled st.lastFrame
      st.hasLastFrame sinkOk 0
    let st2 : LoopState :=
      { started := st.started, prerollScheduled := r.2.1, queue := r.1
        lastFrame := r.2.2.1, hasLastFrame := r.2.2.2.1 }
    let events := r.2.2.2.2
    if prerollTarget ≤ st2.prerollScheduled then
      if startOk then ({ st2 with started := true },
        events ++ [SinkEvent.start true])
      else (st2, events ++ [SinkEvent.start false])
    else (st2, events)

theorem prerollLoop_count (queue : List (List Nat)) :
    ∀ scheduled lastFrame hasLast sinkOk attempt,
      (prerollLoop queue scheduled lastFrame hasLast sinkOk
          attempt).2.1 =
        scheduled +
          ((prerollLoop queue scheduled lastFrame hasLast sinkOk
              attempt).2.2.2.2.countP isSuccessfulSchedule) ∧
      ∀ e ∈ (prerollLoop queue scheduled lastFrame hasLast sinkOk
          attempt).2.2.2.2, isStartEvent e = false := by
  induction queue with
  | nil =>
    intro scheduled lastFrame hasLast sinkOk attempt
    rw [prerollLoop]
    split <;> simp
  | cons f rest ih =>
    intro scheduled lastFrame hasLast sinkOk attempt
    rw [prerollLoop]
    split
    · split
      · obtain ⟨ihc, ihs⟩ := ih (scheduled + 1) f true sinkOk (attempt + 1)
        constructor
        · simp only [List.countP_cons, isSuccessfulSchedule, if_true]
          simp only [ihc]
          omega
        · intro e he
          rcases List.mem_cons.mp he with he | he
          · subst he; rfl
          · exact ihs e he
      · simp [isSuccessfulSchedule, isStartEvent]
    · simp

theorem maybeStartPlayback_not_started (st : LoopState) (sinkOk : Nat → Bool)
    (startOk : Bool) (h : st.started = false) :
    maybeStartPlayback st sinkOk startOk =
      (if prerollTarget ≤ (prerollLoop st.queue st.prerollScheduled
          st.lastFrame st.hasLastFrame sinkOk 0).2.1 then
        ({ started := startOk
           prerollScheduled := (prerollLoop st.queue st.prerollScheduled
             st.lastFrame st.hasLastFrame sinkOk 0).2.1
           queue := (prerollLoop st.queue st.prerollScheduled st.lastFrame
             st.hasLastFrame sinkOk 0).1
           lastFrame := (prerollLoop st.queue st.prerollScheduled st.lastFrame
             st.hasLastFrame sinkOk 0).2.2.1
           hasLastFrame := (prerollLoop st.queue st.prerollScheduled
             st.lastFrame st.hasLastFrame sinkOk 0).2.2.2.1 },
         (prerollLoop st.queue st.prerollScheduled st.lastFrame
           st.hasLastFrame sinkOk 0).2.2.2.2 ++ [SinkEvent.start startOk])
      else
        ({ started := false
           prerollScheduled := (prerollLoop st.queue st.prerollScheduled
             st.lastFrame st.hasLastFrame sinkOk 0).2.1
           queue := (prerollLoop st.queue st.prerollScheduled st.lastFrame
             st.hasLastFrame sinkOk 0).1
           lastFrame := (prerollLoop st.queue st.prerollScheduled st.lastFrame
             st.hasLastFrame sinkOk 0).2.2.1
           hasLastFrame := (prerollLoop st.queue st.prerollScheduled
             st.lastFrame st.hasLastFrame sinkOk 0).2.2.2.1 },
         (prerollLoop st.queue st.prerollScheduled st.lastFrame
           st.hasLastFrame sinkOk 0).2.2.2.2)) := by
  cases startOk <;> simp [maybeStartPlayback, h]

/-- Claim C8: the sink StartScheduledPlayback call is never issued before the
preroll target of 3 frames has been successfully dequeued and scheduled: the
preroll counter counts exactly the successful schedule submissions, a start
call appears in the trace only as the last event and only when the counter
has reached 3, and started becomes true only with a reached target and a
confirmed start. -/
theorem c8_preroll_gates_start (st : LoopState) (sinkOk : Nat → Bool)
    (startOk : Bool) :
    ((maybeStartPlayback st sinkOk startOk).1.prerollScheduled =
      st.prerollScheduled +
        ((maybeStartPlayback st sinkOk startOk).2.countP
          isSuccessfulSchedule) ∨ st.started = true) ∧
    (∀ e ∈ (maybeStartPlayback st sinkOk startOk).2, isStartEvent e = true →
      (maybeStartPlayback st sinkOk startOk).2.getLast? = some e ∧
      prerollTarget ≤
        (maybeStartPlayback st sinkOk startOk).1.prerollScheduled) ∧
    ((maybeStartPlayback st sinkOk startOk).1.started = true →
      st.started = true ∨
        (startOk = true ∧ prerollTarget ≤
          (maybeStartPlayback st sinkOk startOk).1.prerollScheduled)) := by
  by_cases hstarted : st.started
  · refine ⟨Or.inr hstarted, ?_, ?_⟩
    · intro e he
      simp [maybeStartPlayback, hstarted] at he
    · intro _
      exact Or.inl hstarted
  · obtain ⟨hcount, hnostart⟩ :=
      prerollLoop_count st.queue st.prerollScheduled st.lastFrame
        st.hasLastFrame sinkOk 0
    rw [Bool.not_eq_true] at hstarted
    rw [maybeStartPlayback_not_started st sinkOk startOk hstarted]
    by_cases hreach : prerollTarget ≤ (prerollLoop st.queue
        st.prerollScheduled st.lastFrame st.hasLastFrame sinkOk 0).2.1
    · rw [if_pos hreach]
      refine ⟨Or.inl ?_, ?_, ?_⟩
      · show (prerollLoop st.queue st.prerollScheduled st.lastFrame
            st.hasLastFrame sinkOk 0).2.1 =
          st.prerollScheduled + List.countP isSuccessfulSchedule
            ((prerollLoop st.queue st.prerollScheduled st.lastFrame
              st.hasLastFrame sinkOk 0).2.2.2.2 ++ [SinkEvent.start startOk])
        rw [List.countP_append]
        simp [isSuccessfulSchedule, hcount]
      · intro e he hse
        have he2 : e = SinkEvent.start startOk := by
          rcases List.mem_append.mp he with h | h
          · rw [hnostart e h] at hse
            exact absurd hse (by simp)
          · simpa using h
        subst he2
        exact ⟨by simp, hreach⟩
      · intro hs
        have hs2 : startOk = true := hs
        exact Or.inr ⟨hs2, hreach⟩
    · rw [if_neg hreach]
      refine ⟨Or.inl hcount, ?_, ?_⟩
      · intro e he hse
        rw [hnostart e he] at hse
        exact absurd hse (by simp)
      · intro hs
        exact absurd hs (by simp)

/-- Witness for C8: three nonempty queued frames, an accepting sink, and a
confirmed start; the trace ends with the start call after three successful
schedules. -/
theorem c8_preroll_gates_start_witness :
    (maybeStartPlayback
        { started := false, prerollScheduled := 0
          queue := [[1], [2], [3]], lastFrame := [], hasLastFrame := false }
        (fun _ => true) true).2.getLast? = some (SinkEvent.start true) ∧
    prerollTarget ≤
      (maybeStartPlayback
        { started := false, prerollScheduled := 0
          queue := [[1], [2], [3]], lastFrame := [], hasLastFrame := false }
        (fun _ => true) true).1.prerollScheduled :=
  (c8_preroll_gates_start
      { started := false, prerollScheduled := 0
        queue := [[1], [2], [3]], lastFrame := [], hasLastFrame := false }
      (fun _ => true) true).2.1
    (SinkEvent.start true) (by decide) (by decide)

def kFrameMagic : Nat := 0x42524746
def kFrameVersion : Nat := 1
def kFrameTypeFrame : Nat := 1
def kFrameTypeShutdown : Nat := 2
def kFrameHeaderSize : Nat := 28

/-- Parsed streamed-frame header, as filled in by the playback loop. -/
structure PlaybackFrameHeader where
  magic : Nat
  version : Nat
  type : Nat
  width : Nat
  height : Nat
  timestamp : Nat
  bufferLength : Nat
deriving Repr, DecidableEq

/-- readUint32BE from decklink-helper.cpp (missing bytes read as 0). -/
def readUint32BE (data : List Nat) : Nat :=
  ((data.getD 0 0) <<< 24) ||| ((data.getD 1 0) <<< 16) |||
    ((data.getD 2 0) <<< 8) ||| data.getD 3 0

/-- readUint16BE from decklink-helper.cpp. -/
def readUint16BE (data : List Nat) : Nat :=
  ((data.getD 0 0) <<< 8) ||| data.getD 1 0

/-- readUint64BE from decklink-helper.cpp. -/
def readUint64BE (data : List Nat) : Nat :=
  ((data.getD 0 0) <<< 56) ||| ((data.getD 1 0) <<< 48) |||
    ((data.getD 2 0) <<< 40) ||| ((data.getD 3 0) <<< 32) |||
    ((data.getD 4 0) <<< 24) ||| ((data.getD 5 0) <<< 16) |||
    ((data.getD 6 0) <<< 8) ||| data.getD 7 0

/-- Header parse at the field offsets used by the playback loop. -/
def parseFrameHeader (hb : List Nat) : PlaybackFrameHeader :=
  { magic := readUint32BE hb
    version := readUint16BE (hb.drop 4)
    type := readUint16BE (hb.drop 6)
    width := readUint32BE (hb.drop 8)
    height := readUint32BE (hb.drop 12)
    timestamp := readUint64BE (hb.drop 16)
    bufferLength := readUint32BE (hb.drop 24) }

/-- The streamed ingestion loop of runPlayback over a finite byte stream,
returning the frames pushed to the queue in order.  Insufficient bytes for a
header or a payload read is end of stream (readExact fails, the loop
breaks); a bad magic or version breaks; a shutdown type breaks; an unknown
type discards its declared payload and continues; a geometry or length
mismatch discards its declared payload (discardBytes) and continues;
otherwise the payload is read and pushed. -/
def runStreamIngest (width height : Nat) (stream : List Nat) :
    List (List Nat) :=
  if h28 : stream.length < kFrameHeaderSize then []
  else
    let header := parseFrameHeader (stream.take kFrameHeaderSize)
    let rest := stream.drop kFrameHeaderSize
    if header.magic ≠ kFrameMagic ∨ header.version ≠ kFrameVersion then []
    else if header.type = kFrameTypeShutdown then []
    else if header.type ≠ kFrameTypeFrame then
      if 0 < header.bufferLength then
        if rest.length < header.bufferLength then []
        else runStreamIngest width height (rest.drop header.bufferLength)
      else runStreamIngest width height rest
    else if header.width ≠ width ∨ header.height ≠ height ∨
        header.bufferLength ≠ width * height * 4 then
      if 0 < header.bufferLength then
        if rest.length < header.bufferLength then []
        else runStreamIngest width height (rest.drop header.bufferLength)
      else runStreamIngest width height rest
    else
      if rest.length < header.bufferLength then []
      else
        rest.take header.bufferLength ::
          runStreamIngest width height (rest.drop header.bufferLength)
termination_by stream.length
decreasing_by
  all_goals simp only [List.length_drop, kFrameHeaderSize] at *
  all_goals omega

theorem runStreamIngest_accept (width height : Nat)
    (hb payload rest : List Nat)
    (hlen : hb.length = kFrameHeaderSize)
    (hmagic : (parseFrameHeader hb).magic = kFrameMagic)
    (hver : (parseFrameHeader hb).version = kFrameVersion)
    (htype : (parseFrameHeader hb).type = kFrameTypeFrame)
    (hwdt : (parseFrameHeader hb).width = width)
    (hhgt : (parseFrameHeader hb).height = height)
    (hbl : (parseFrameHeader hb).bufferLength = width * height * 4)
    (hpay : payload.length = (parseFrameHeader hb).bufferLength) :
    runStreamIngest width height (hb ++ payload ++ rest) =
      payload :: runStreamIngest width height rest := by
  rw [List.append_assoc]
  have h1 : (hb ++ (payload ++ rest)).take kFrameHeaderSize = hb :=
    List.take_left' hlen
  have h2 : (hb ++ (payload ++ rest)).drop kFrameHeaderSize = payload ++ rest :=
    List.drop_left' hlen
  conv_lhs => rw [runStreamIngest]
  rw [dif_neg (by rw [List.length_append, hlen]; omega)]
  simp only [h1, h2]
  rw [if_neg (by push_neg; exact ⟨hmagic, hver⟩)]
  rw [if_neg (by rw [htype]; decide)]
  rw [if_neg (by simp [htype])]
  rw [if_neg (by push_neg; exact ⟨hwdt, hhgt, hbl⟩)]
  rw [if_neg (by rw [List.length_append]; omega)]
  rw [← hpay, List.take_left, List.drop_left]

theorem runStreamIngest_skip (width height : Nat)
    (hb payload rest : List Nat)
    (hlen : hb.length = kFrameHeaderSize)
    (hmagic : (parseFrameHeader hb).magic = kFrameMagic)
    (hver : (parseFrameHeader hb).version = kFrameVersion)
    (htype : (parseFrameHeader hb).type = kFrameTypeFrame)
    (hmism : (parseFrameHeader hb).width ≠ width ∨
      (parseFrameHeader hb).height ≠ height ∨
      (parseFrameHeader hb).bufferLength ≠ width * height * 4)
    (hpay : payload.length = (parseFrameHeader hb).bufferLength) :
    runStreamIngest width height (hb ++ payload ++ rest) =
      runStreamIngest width height rest := by
  rw [List.append_assoc]
  have h1 : (hb ++ (payload ++ rest)).take kFrameHeaderSize = hb :=
    List.take_left' hlen
  have h2 : (hb ++ (payload ++ rest)).drop kFrameHeaderSize = payload ++ rest :=
    List.drop_left' hlen
  conv_lhs => rw [runStreamIngest]
  rw [dif_neg (by rw [List.length_append, hlen]; omega)]
  simp only [h1, h2]
  rw [if_neg (by push_neg; exact ⟨hmagic, hver⟩)]
  rw [if_neg (by rw [htype]; decide)]
  rw [if_neg (by simp [htype])]
  rw [if_pos hmism]
  by_cases hzero : 0 < (parseFrameHeader hb).bufferLength
  · rw [if_pos hzero]
    rw [if_neg (by rw [List.length_append]; omega)]
    rw [← hpay, List.drop_left]
  · rw [if_neg hzero]
    have hpz : payload = [] := by
      rw [← List.length_eq_zero]
      omega
    rw [hpz, List.nil_append]

/-- Claim C3: a streamed header with valid magic and version and frame type
but mismatched width, height, or declared payload length causes exactly the
declared payload-length bytes to be consumed with nothing enqueued, and
parsing resumes at the following header, so a valid frame sent immediately
after the bad one is accepted. -/
theorem c3_stream_mismatch_recoverable (width height : Nat)
    (bad payload good gpayload rest : List Nat)
    (hblen : bad.length = kFrameHeaderSize)
    (hbmagic : (parseFrameHeader bad).magic = kFrameMagic)
    (hbver : (parseFrameHeader bad).version = kFrameVersion)
    (hbtype : (parseFrameHeader bad).type = kFrameTypeFrame)
    (hbmism : (parseFrameHeader bad).width ≠ width ∨
      (parseFrameHeader bad).height ≠ height ∨
      (parseFrameHeader bad).bufferLength ≠ width * height * 4)
    (hbpay : payload.length = (parseFrameHeader bad).bufferLength)
    (hglen : good.length = kFrameHeaderSize)
    (hgmagic : (parseFrameHeader good).magic = kFrameMagic)
    (hgver : (parseFrameHeader good).version = kFrameVersion)
    (hgtype : (parseFrameHeader good).type = kFrameTypeFrame)
    (hgwdt : (parseFrameHeader good).width = width)
    (hghgt : (parseFrameHeader good).height = height)
    (hgbl : (parseFrameHeader good).bufferLength = width * height * 4)
    (hgpay : gpayload.length = (parseFrameHeader good).bufferLength) :
    runStreamIngest width height
        (bad ++ payload ++ (good ++ gpayload ++ rest)) =
      gpayload :: runStreamIngest width height rest := by
  rw [runStreamIngest_skip width height bad payload _ hblen hbmagic hbver
    hbtype hbmism hbpay]
  exact runStreamIngest_accept width height good gpayload rest hglen hgmagic
    hgver hgtype hgwdt hghgt hgbl hgpay

/-- Witness for C3 at 2x2 geometry: a frame header declaring a 4-byte
payload (expected 16) followed by a valid 16-byte frame; the bad frame is
dropped, the valid one accepted. -/
theorem c3_stream_mismatch_recoverable_witness :
    runStreamIngest 2 2
        ([0x42, 0x52, 0x47, 0x46, 0, 1, 0, 1,
          0, 0, 0, 2, 0, 0, 0, 2,
          0, 0, 0, 0, 0, 0, 0, 0,
          0, 0, 0, 4] ++ [1, 2, 3, 4] ++
         ([0x42, 0x52, 0x47, 0x46, 0, 1, 0, 1,
           0, 0, 0, 2, 0, 0, 0, 2,
           0, 0, 0, 0, 0, 0, 0, 0,
           0, 0, 0, 16] ++
          [10, 11, 12, 13, 14, 15, 16, 17,
           18, 19, 20, 21, 22, 23, 24, 25] ++ [])) =
      [10, 11, 12, 13, 14, 15, 16, 17,
       18, 19, 20, 21, 22, 23, 24, 25] :: runStreamIngest 2 2 [] :=
  c3_stream_mismatch_recoverable 2 2
    [0x42, 0x52, 0x47, 0x46, 0, 1, 0, 1,
     0, 0, 0, 2, 0, 0, 0, 2,
     0, 0, 0, 0, 0, 0, 0, 0,
     0, 0, 0, 4]
    [1, 2, 3, 4]
    [0x42, 0x52, 0x47, 0x46, 0, 1, 0, 1,
     0, 0, 0, 2, 0, 0, 0, 2,
     0, 0, 0, 0, 0, 0, 0, 0,
     0, 0, 0, 16]
    [10, 11, 12, 13, 14, 15, 16, 17,
     18, 19, 20, 21, 22, 23, 24, 25]
    []
    (by decide) (by decide) (by decide) (by decide)
    (by decide) (by decide)
    (by decide) (by decide) (by decide) (by decide)
    (by decide) (by decide) (by decide) (by decide)

end DeckLink
